import Mathlib

/-!
Verification development for the TLS 1.3 client-side handshake driver
(`library/ssl_tls13_client.c` of mbedtls).  The definitions below are a
shallow embedding of the C functions of that file: byte buffers become
`List Nat` (each element one octet), machine integers become `Nat`/`Int`
with explicit reduction modulo `2 ^ 32` where the C code truncates,
fallible functions return `HsResult`, and the pended fatal alert is carried
next to the returned error code.  Helpers that live outside
`ssl_tls13_client.c` (bit masks, the HRR magic, the named-group registry,
the codec bound-check macros) are modelled from the specification and are
marked as such in their doc comments.
-/

/-- Alert messages that the client may pend while processing a message. -/
inductive SslAlert where
  | illegalParameter
  | decodeError
  | handshakeFailure
  | protocolVersion
  | unexpectedMessage
  | unsupportedExtension
deriving DecidableEq

/-- Typed error codes mirroring the `MBEDTLS_ERR_SSL_*` constants used by
the client driver. -/
inductive SslError where
  | illegalParameter
  | decodeError
  | handshakeFailure
  | badProtocolVersion
  | unexpectedMessage
  | unsupportedExtension
  | internalError
  | badInputData
  | badConfig
  | allocFailed
deriving DecidableEq

/-- A fatal failure: the error code returned by the C function together with
the alert pended by `MBEDTLS_SSL_PEND_FATAL_ALERT` (if any). -/
structure SslFailure where
  code : SslError
  pendedAlert : Option SslAlert
deriving DecidableEq

/-- Result of a fallible handshake-processing function. -/
inductive HsResult (α : Type) where
  | ok (value : α)
  | fail (failure : SslFailure)
deriving DecidableEq

/-- MBEDTLS_PUT_UINT16_BE: big-endian 16-bit write (truncating like C). -/
def putU16 (v : Nat) : List Nat := [v / 256 % 256, v % 256]

/-- MBEDTLS_PUT_UINT32_BE: big-endian 32-bit write (truncating like C). -/
def putU32 (v : Nat) : List Nat :=
  [v / 16777216 % 256, v / 65536 % 256, v / 256 % 256, v % 256]

/-- MBEDTLS_GET_UINT16_BE: big-endian 16-bit read at offset `i` of a byte
list (out-of-range reads yield 0; all call sites check bounds first). -/
def getU16 (b : List Nat) (i : Nat) : Nat := 256 * b.getD i 0 + b.getD (i + 1) 0

/-- Modelled from the spec: TLS 1.3 key-exchange-mode bit
`MBEDTLS_SSL_TLS1_3_KEY_EXCHANGE_MODE_PSK`. -/
def KEX_MODE_PSK : Nat := 1

/-- Modelled from the spec: key-exchange-mode bit for pure ephemeral. -/
def KEX_MODE_EPHEMERAL : Nat := 2

/-- Modelled from the spec: key-exchange-mode bit for PSK-ephemeral. -/
def KEX_MODE_PSK_EPHEMERAL : Nat := 4

/-- Modelled from the spec: `MBEDTLS_SSL_TLS1_3_KEY_EXCHANGE_MODE_PSK_ALL`
= PSK | PSK_EPHEMERAL. -/
def KEX_MODE_PSK_ALL : Nat := 5

/-- Modelled from the spec: `..._MODE_EPHEMERAL_ALL` = EPHEMERAL |
PSK_EPHEMERAL. -/
def KEX_MODE_EPHEMERAL_ALL : Nat := 6

/-- Modelled from the spec: `mbedtls_ssl_conf_tls13_check_kex_modes`
(ssl_misc.h): true iff the configured `tls13_kex_modes` bitmask meets the
given mask. -/
def mbedtls_ssl_conf_tls13_check_kex_modes (conf mask : Nat) : Bool :=
  (conf &&& mask) != 0

/-- Modelled from the spec: some PSK key-exchange mode is enabled. -/
def mbedtls_ssl_conf_tls13_some_psk_enabled (conf : Nat) : Bool :=
  mbedtls_ssl_conf_tls13_check_kex_modes conf KEX_MODE_PSK_ALL

/-- Modelled from the spec: some ephemeral key-exchange mode is enabled. -/
def mbedtls_ssl_conf_tls13_some_ephemeral_enabled (conf : Nat) : Bool :=
  mbedtls_ssl_conf_tls13_check_kex_modes conf KEX_MODE_EPHEMERAL_ALL

/-- Modelled from the spec: pure-PSK mode is enabled. -/
def mbedtls_ssl_conf_tls13_psk_enabled (conf : Nat) : Bool :=
  mbedtls_ssl_conf_tls13_check_kex_modes conf KEX_MODE_PSK

/-- Modelled from the spec: PSK-ephemeral mode is enabled. -/
def mbedtls_ssl_conf_tls13_psk_ephemeral_enabled (conf : Nat) : Bool :=
  mbedtls_ssl_conf_tls13_check_kex_modes conf KEX_MODE_PSK_EPHEMERAL

/-- Wire extension-type number of supported_versions (RFC 8446). -/
def TLS_EXT_SUPPORTED_VERSIONS : Nat := 43

/-- Wire extension-type number of cookie. -/
def TLS_EXT_COOKIE : Nat := 44

/-- Wire extension-type number of key_share. -/
def TLS_EXT_KEY_SHARE : Nat := 51

/-- Wire extension-type number of pre_shared_key. -/
def TLS_EXT_PRE_SHARED_KEY : Nat := 41

/-- Wire extension-type number of psk_key_exchange_modes. -/
def TLS_EXT_PSK_KEY_EXCHANGE_MODES : Nat := 45

/-- Wire extension-type number of early_data. -/
def TLS_EXT_EARLY_DATA : Nat := 42

/-- Modelled from the spec: bit of pre_shared_key in the
`received_extensions` bitmask (`MBEDTLS_SSL_EXT_MASK(PRE_SHARED_KEY)`);
the concrete bit position is irrelevant, only distinctness matters. -/
def EXT_MASK_PRE_SHARED_KEY : Nat := 2 ^ 41

/-- Modelled from the spec: bit of key_share in `received_extensions`. -/
def EXT_MASK_KEY_SHARE : Nat := 2 ^ 51

/-- The three TLS 1.3 key-exchange modes of the handshake context. -/
inductive KeyExchangeMode where
  | psk
  | ephemeral
  | pskEphemeral
deriving DecidableEq

/-- Single-mode bitmask value of a key-exchange mode. -/
def keyExchangeModeMask : KeyExchangeMode → Nat
  | .psk => KEX_MODE_PSK
  | .ephemeral => KEX_MODE_EPHEMERAL
  | .pskEphemeral => KEX_MODE_PSK_EPHEMERAL

/-- ssl_tls13_postprocess_server_hello, key-exchange-mode part
(ssl_tls13_client.c:1819-1901): infer the mode from the received-extension
bitmask restricted to {PRE_SHARED_KEY, KEY_SHARE}, then verify it is
enabled in the configured `tls13_kex_modes`.  Every failure path runs
through the `cleanup` label, which pends a handshake_failure alert.  The
subsequent external key-schedule calls (early secret, handshake transform,
inbound installation) are out of scope and modelled as succeeding. -/
def ssl_tls13_postprocess_server_hello (receivedExtensions kexModesConf : Nat) :
    HsResult KeyExchangeMode :=
  let masked := receivedExtensions &&& (EXT_MASK_PRE_SHARED_KEY ||| EXT_MASK_KEY_SHARE)
  if masked = EXT_MASK_PRE_SHARED_KEY then
    if mbedtls_ssl_conf_tls13_check_kex_modes kexModesConf (keyExchangeModeMask .psk) then
      .ok .psk
    else .fail ⟨.handshakeFailure, some .handshakeFailure⟩
  else if masked = EXT_MASK_KEY_SHARE then
    if mbedtls_ssl_conf_tls13_check_kex_modes kexModesConf (keyExchangeModeMask .ephemeral) then
      .ok .ephemeral
    else .fail ⟨.handshakeFailure, some .handshakeFailure⟩
  else if masked = (EXT_MASK_PRE_SHARED_KEY ||| EXT_MASK_KEY_SHARE) then
    if mbedtls_ssl_conf_tls13_check_kex_modes kexModesConf (keyExchangeModeMask .pskEphemeral) then
      .ok .pskEphemeral
    else .fail ⟨.handshakeFailure, some .handshakeFailure⟩
  else .fail ⟨.handshakeFailure, some .handshakeFailure⟩

/-- ssl_tls13_parse_supported_versions_ext (ssl_tls13_client.c:98-123).
The leading bound check is `MBEDTLS_SSL_CHK_BUF_READ_PTR`, modelled from
the spec (codec overrun is fatal and emits decode_error). -/
def ssl_tls13_parse_supported_versions_ext (b : List Nat) : HsResult Unit :=
  if b.length < 2 then .fail ⟨.decodeError, some .decodeError⟩
  else if getU16 b 0 ≠ 0x0304 then .fail ⟨.illegalParameter, some .illegalParameter⟩
  else if b.length ≠ 2 then .fail ⟨.decodeError, some .decodeError⟩
  else .ok ()

/-- Resumption-ticket data relevant to the client driver (fields of
`mbedtls_ssl_session` for the negotiated session, with the external
ciphersuite lookups pre-evaluated into `ciphersuiteIsOffered` and
`hashLen`). -/
structure TicketInfo where
  ticket : List Nat
  received : Int
  ageAdd : Nat
  flags : Nat
  tlsVersion : Nat
  ciphersuiteIsOffered : Bool
  hashLen : Nat
deriving DecidableEq

/-- Read-only client configuration and session state consulted by the
ClientHello extension writers. `sessionTicket = none` models a NULL
session or NULL ticket; `hasStaticPsk` models
`mbedtls_ssl_conf_has_static_psk`. -/
structure ClientConfig where
  kexModes : Nat
  earlyDataEnabled : Bool
  resume : Bool
  sessionTicket : Option TicketInfo
  hasStaticPsk : Bool
  pskIdentity : List Nat
  hasCookie : Bool
deriving DecidableEq

/-- ssl_tls13_has_configured_ticket (ssl_tls13_client.c:675-683): a ticket
is usable iff resuming, the ticket exists, and its flags (restricted to
the PSK modes) meet the configured kex modes. -/
def ssl_tls13_has_configured_ticket (cfg : ClientConfig) : Bool :=
  match cfg.sessionTicket with
  | some t =>
    cfg.resume && mbedtls_ssl_conf_tls13_check_kex_modes cfg.kexModes
      (t.flags &&& KEX_MODE_PSK_ALL)
  | none => false

/-- Ticket flag `MBEDTLS_SSL_TLS1_3_TICKET_ALLOW_EARLY_DATA`
(modelled from the spec: ticket-flags bit layout). -/
def TICKET_ALLOW_EARLY_DATA : Nat := 8

/-- ssl_tls13_early_data_has_valid_ticket (ssl_tls13_client.c:686-696). -/
def ssl_tls13_early_data_has_valid_ticket (cfg : ClientConfig) : Bool :=
  match cfg.sessionTicket with
  | some t =>
    cfg.resume && (t.tlsVersion == 0x0304) &&
      ((t.flags &&& TICKET_ALLOW_EARLY_DATA) != 0) && t.ciphersuiteIsOffered
  | none => false

/-- ssl_tls13_get_configured_psk_count (ssl_tls13_client.c:771-785). -/
def ssl_tls13_get_configured_psk_count (cfg : ClientConfig) : Nat :=
  (if ssl_tls13_has_configured_ticket cfg then 1 else 0) +
    (if cfg.hasStaticPsk then 1 else 0)

/-- Early-data status of the connection (`ssl->early_data_status`). -/
inductive EarlyDataStatus where
  | notSent
  | rejected
  | accepted
deriving DecidableEq

/-- mbedtls_ssl_tls13_write_client_hello_exts (ssl_tls13_client.c:1160-1241),
abstracted to the sequence of extension types it writes, in source order,
together with the `early_data_status` it assigns.  The pre_shared_key
extension is NOT written by this function; the caller appends it last. -/
def mbedtls_ssl_tls13_write_client_hello_exts (cfg : ClientConfig) :
    List Nat × EarlyDataStatus :=
  let front :=
    [TLS_EXT_SUPPORTED_VERSIONS] ++
      (if cfg.hasCookie then [TLS_EXT_COOKIE] else []) ++
      (if mbedtls_ssl_conf_tls13_some_ephemeral_enabled cfg.kexModes then
        [TLS_EXT_KEY_SHARE] else [])
  if mbedtls_ssl_conf_tls13_some_psk_enabled cfg.kexModes &&
      ssl_tls13_early_data_has_valid_ticket cfg && cfg.earlyDataEnabled then
    (front ++ [TLS_EXT_EARLY_DATA] ++
      (if mbedtls_ssl_conf_tls13_some_psk_enabled cfg.kexModes then
        [TLS_EXT_PSK_KEY_EXCHANGE_MODES] else []),
     .rejected)
  else
    (front ++
      (if mbedtls_ssl_conf_tls13_some_psk_enabled cfg.kexModes then
        [TLS_EXT_PSK_KEY_EXCHANGE_MODES] else []),
     .notSent)

/-- Modelled from the spec: the ClientHello driver (ssl_client.c, outside
this file) calls `mbedtls_ssl_tls13_write_client_hello_exts` and then
appends the pre_shared_key extension as the last extension whenever at
least one PSK is configured (the identities writer itself skips the
extension when no PSK is configured). -/
def clientHelloExtTypes (cfg : ClientConfig) : List Nat :=
  (mbedtls_ssl_tls13_write_client_hello_exts cfg).1 ++
    (if ssl_tls13_get_configured_psk_count cfg = 0 then []
     else [TLS_EXT_PRE_SHARED_KEY])

/-- Obfuscated ticket age as computed in
mbedtls_ssl_tls13_write_identities_of_pre_shared_key_ext
(ssl_tls13_client.c:931-954): the difference `now - ticket_received`
(a signed time_t) is cast to uint32, decremented by one if positive, then
multiplied by 1000 and increased by `ticket_age_add`, all in uint32
arithmetic. -/
def obfuscatedTicketAge (now received : Int) (ageAdd : Nat) : Nat :=
  let a0 : Nat := ((now - received) % (2 ^ 32 : Int)).toNat
  let a1 : Nat := if 0 < a0 then a0 - 1 else a0
  (a1 * 1000 + ageAdd) % 2 ^ 32

/-- One PskIdentity entry selected for the pre_shared_key extension. -/
structure PskEntry where
  identity : List Nat
  obfAge : Nat
  hashLen : Nat
deriving DecidableEq

/-- The ticket-based PskIdentity entry, if a ticket is configured
(ssl_tls13_client.c:928-995, the MBEDTLS_HAVE_TIME branch). -/
def ticketEntryList (cfg : ClientConfig) (now : Int) : List PskEntry :=
  match cfg.sessionTicket with
  | some t =>
    if cfg.resume && mbedtls_ssl_conf_tls13_check_kex_modes cfg.kexModes
        (t.flags &&& KEX_MODE_PSK_ALL) then
      [⟨t.ticket, obfuscatedTicketAge now t.received t.ageAdd, t.hashLen⟩]
    else []
  | none => []

/-- The external-PSK PskIdentity entry, if a static PSK is configured
(ssl_tls13_client.c:997-1008): obfuscated age 0, hash SHA-256 (32 bytes). -/
def staticPskEntryList (cfg : ClientConfig) : List PskEntry :=
  if cfg.hasStaticPsk then [⟨cfg.pskIdentity, 0, 32⟩] else []

/-- All PskIdentity entries written, in source order:
ticket first, then static PSK. -/
def identitiesToWrite (cfg : ClientConfig) (now : Int) : List PskEntry :=
  ticketEntryList cfg now ++ staticPskEntryList cfg

/-- ssl_tls13_write_identity (ssl_tls13_client.c:788-815):
identity_len (2) | identity | obfuscated_ticket_age (4). -/
def ssl_tls13_write_identity (e : PskEntry) : List Nat :=
  putU16 e.identity.length ++ e.identity ++ putU32 e.obfAge

/-- Output of phase A of the pre_shared_key writer: the bytes of the
extension header and identity list, plus the two lengths it returns.
The binder region (`bindersLen` bytes) is reserved but not yet written. -/
structure PskExtPhaseA where
  identityRegion : List Nat
  outLen : Nat
  bindersLen : Nat
deriving DecidableEq

/-- mbedtls_ssl_tls13_write_identities_of_pre_shared_key_ext
(ssl_tls13_client.c:889-1034).  Buffer-capacity checks (which can only
produce BufferTooSmall) are elided; the modelled function is the
successful run.  When no PSK is configured the extension is skipped and
both returned lengths are 0. -/
def mbedtls_ssl_tls13_write_identities_of_pre_shared_key_ext
    (cfg : ClientConfig) (now : Int) : PskExtPhaseA :=
  if ssl_tls13_get_configured_psk_count cfg = 0 then ⟨[], 0, 0⟩
  else
    let entries := identitiesToWrite cfg now
    let identityBytes := (entries.map ssl_tls13_write_identity).flatten
    let lBinders := ((entries.map fun e => 1 + e.hashLen).sum) + 2
    let header := putU16 TLS_EXT_PRE_SHARED_KEY ++
      putU16 (2 + identityBytes.length + lBinders) ++ putU16 identityBytes.length
    ⟨header ++ identityBytes, 6 + identityBytes.length + lBinders, lBinders⟩

/-- ssl_tls13_write_binder (ssl_tls13_client.c:818-864): binder_len (1)
followed by the binder MAC; the MAC itself is computed by the external key
schedule and passed in. -/
def ssl_tls13_write_binder (hashLen : Nat) (mac : List Nat) : List Nat :=
  hashLen :: mac

/-- mbedtls_ssl_tls13_write_binders_of_pre_shared_key_ext
(ssl_tls13_client.c:1036-1091): two length bytes then one binder per
selected PSK, ticket first, static PSK second.  `ticketMac`/`pskMac` are
the externally computed transcript HMACs. -/
def mbedtls_ssl_tls13_write_binders_of_pre_shared_key_ext
    (cfg : ClientConfig) (ticketMac pskMac : List Nat) : List Nat :=
  let body :=
    (match cfg.sessionTicket with
     | some t =>
       if cfg.resume && mbedtls_ssl_conf_tls13_check_kex_modes cfg.kexModes
           (t.flags &&& KEX_MODE_PSK_ALL) then
         ssl_tls13_write_binder t.hashLen ticketMac
       else []
     | none => []) ++
      (if cfg.hasStaticPsk then ssl_tls13_write_binder 32 pskMac else [])
  putU16 body.length ++ body

/-- ssl_tls13_parse_hrr_key_share_ext (ssl_tls13_client.c:369-437),
parameterised by the crypto provider's support predicate
(`mbedtls_ssl_get_psa_curve_info_from_tls_id`, external).  The 2-byte
bound check is the codec macro, modelled from the spec.  On success the
returned group is stored as the new `offered_group_id`. -/
def ssl_tls13_parse_hrr_key_share_ext (supported : Nat → Bool)
    (groupList : List Nat) (offeredGroupId : Nat) (b : List Nat) : HsResult Nat :=
  if b.length < 2 then .fail ⟨.decodeError, some .decodeError⟩
  else
    let selectedGroup := getU16 b 0
    let found := groupList.any fun g => supported g && g == selectedGroup
    if found = false ∨ selectedGroup = offeredGroupId then
      .fail ⟨.illegalParameter, some .illegalParameter⟩
    else .ok selectedGroup

/-- Modelled from the spec: `mbedtls_ssl_tls13_named_group_is_ecdhe`
(ssl_misc.h, external named-group registry): the five ECDHE groups of the
TLS 1.3 registry. -/
def mbedtls_ssl_tls13_named_group_is_ecdhe (g : Nat) : Bool :=
  g == 0x17 || g == 0x18 || g == 0x19 || g == 0x1D || g == 0x1E

/-- Mutable handshake/connection state consulted by the ServerHello
preprocessing step.  TLS versions use their wire encoding (0x0303 for
TLS 1.2, 0x0304 for TLS 1.3). -/
structure ClientState where
  minTlsVersion : Nat
  tlsVersion : Nat
  hrrCount : Nat
  receivedExtensions : Nat
  offeredGroupId : Nat
  hasEcdhPrivkey : Bool
  keepCurrentMessage : Bool
deriving DecidableEq

/-- ssl_tls13_reset_key_share (ssl_tls13_client.c:174-205): destroy the
ephemeral private key.  Fails with an internal error when no group was
offered or the offered group is not ECDHE (only ECDHE is implemented);
the external `psa_destroy_key` is modelled as succeeding. -/
def ssl_tls13_reset_key_share (st : ClientState) : HsResult ClientState :=
  if st.offeredGroupId = 0 then .fail ⟨.internalError, none⟩
  else if mbedtls_ssl_tls13_named_group_is_ecdhe st.offeredGroupId then
    .ok { st with hasEcdhPrivkey := false }
  else .fail ⟨.internalError, none⟩

/-- Extension-scanning loop of ssl_tls13_is_supported_versions_ext_present
(ssl_tls13_client.c:1311-1328).  The `fuel` argument only bounds the
number of iterations; it is always called with fuel larger than the number
of extensions (each iteration consumes at least 4 bytes), so the fuel-zero
branch is unreachable.  As in the source, the extension type is tested
before the data-length bound is checked. -/
def scanExtsForSupportedVersions : Nat → List Nat → HsResult Bool
  | _, [] => .ok false
  | 0, _ :: _ => .fail ⟨.internalError, none⟩
  | fuel + 1, b =>
    if b.length < 4 then .fail ⟨.decodeError, some .decodeError⟩
    else if getU16 b 0 = TLS_EXT_SUPPORTED_VERSIONS then .ok true
    else if b.length - 4 < getU16 b 2 then .fail ⟨.decodeError, some .decodeError⟩
    else scanExtsForSupportedVersions fuel (b.drop (4 + getU16 b 2))

/-- ssl_tls13_is_supported_versions_ext_present
(ssl_tls13_client.c:1259-1329).  Layout offsets: legacy_version (2),
random (32), legacy_session_id_echo length byte at offset 34, then the
echo, cipher_suite (2), compression (1), extensions length (2),
extensions.  Bound checks are the codec macro, modelled from the spec. -/
def ssl_tls13_is_supported_versions_ext_present (buf : List Nat) : HsResult Bool :=
  if buf.length < 35 then .fail ⟨.decodeError, some .decodeError⟩
  else
    let echoLen := buf.getD 34 0
    if buf.length - 34 < echoLen + 4 then .fail ⟨.decodeError, some .decodeError⟩
    else if buf.length = 38 + echoLen then .ok false
    else if buf.length - (38 + echoLen) < 2 then .fail ⟨.decodeError, some .decodeError⟩
    else
      let extsLen := getU16 buf (38 + echoLen)
      if buf.length - (40 + echoLen) < extsLen then .fail ⟨.decodeError, some .decodeError⟩
      else scanExtsForSupportedVersions (extsLen + 1) ((buf.drop (40 + echoLen)).take extsLen)

/-- The RFC 8446 downgrade-protection test on the last eight bytes of the
server random: bytes 26..32 of the message are the seven ASCII bytes of
DOWNGRD and byte 33 is 0x00 or 0x01. -/
def downgradeMagicMatch (buf : List Nat) : Bool :=
  ((buf.drop 26).take 7 == [0x44, 0x4F, 0x57, 0x4E, 0x47, 0x52, 0x44]) &&
    (buf.getD 33 0 == 0 || buf.getD 33 0 == 1)

/-- ssl_tls13_is_downgrade_negotiation (ssl_tls13_client.c:1336-1359). -/
def ssl_tls13_is_downgrade_negotiation (buf : List Nat) : HsResult Bool :=
  if buf.length < 34 then .fail ⟨.decodeError, some .decodeError⟩
  else .ok (downgradeMagicMatch buf)

/-- Modelled from the spec: `mbedtls_ssl_tls13_hello_retry_request_magic`
(defined in ssl_tls13_generic.c, outside this file) is the SHA-256 of the
string HelloRetryRequest, RFC 8446 section 4.1.3. -/
def hrrMagic : List Nat :=
  [0xCF, 0x21, 0xAD, 0x74, 0xE5, 0x9A, 0x61, 0x11,
   0xBE, 0x1D, 0x8C, 0x02, 0x1E, 0x65, 0xB8, 0x91,
   0xC2, 0xA2, 0x11, 0x16, 0x7A, 0xBB, 0x8C, 0x5E,
   0x07, 0x9E, 0x09, 0xE2, 0xC8, 0xA8, 0x33, 0x9C]

/-- Whether the 32 random bytes of the message equal the HRR magic. -/
def isHrrRandom (buf : List Nat) : Bool := (buf.drop 2).take 32 == hrrMagic

/-- ssl_server_hello_is_hrr (ssl_tls13_client.c:1369-1398), with true
standing for SSL_SERVER_HELLO_HRR and false for SSL_SERVER_HELLO. -/
def ssl_server_hello_is_hrr (buf : List Nat) : HsResult Bool :=
  if buf.length < 34 then .fail ⟨.decodeError, some .decodeError⟩
  else .ok (isHrrRandom buf)

/-- Classifier outcome of ServerHello preprocessing
(SSL_SERVER_HELLO / SSL_SERVER_HELLO_HRR / SSL_SERVER_HELLO_TLS1_2). -/
inductive ServerHelloSignal where
  | serverHello
  | helloRetryRequest
  | tls12
deriving DecidableEq

/-- ssl_tls13_preprocess_server_hello (ssl_tls13_client.c:1408-1497).
The external checksum update and the session_negotiate endpoint fields are
out of scope; all control flow, error codes, pended alerts and state
updates (keep_current_message, tls_version, received_extensions reset,
hello_retry_request_count) are mirrored. -/
def ssl_tls13_preprocess_server_hello (kexModesConf : Nat) (st : ClientState)
    (buf : List Nat) : HsResult (ServerHelloSignal × ClientState) :=
  match ssl_tls13_is_supported_versions_ext_present buf with
  | .fail e => .fail e
  | .ok false =>
    match ssl_tls13_is_downgrade_negotiation buf with
    | .fail e => .fail e
    | .ok dg =>
      if 0x0303 < st.minTlsVersion ∨ dg = true then
        .fail ⟨.illegalParameter, some .illegalParameter⟩
      else
        let st1 := { st with keepCurrentMessage := true, tlsVersion := 0x0303 }
        if mbedtls_ssl_conf_tls13_some_ephemeral_enabled kexModesConf then
          match ssl_tls13_reset_key_share st1 with
          | .fail e => .fail e
          | .ok st2 => .ok (.tls12, st2)
        else .ok (.tls12, st1)
  | .ok true =>
    let st1 := { st with receivedExtensions := 0 }
    match ssl_server_hello_is_hrr buf with
    | .fail e => .fail e
    | .ok false => .ok (.serverHello, st1)
    | .ok true =>
      if 0 < st1.hrrCount then .fail ⟨.unexpectedMessage, some .unexpectedMessage⟩
      else if mbedtls_ssl_conf_tls13_some_ephemeral_enabled kexModesConf = false then
        .fail ⟨.illegalParameter, some .illegalParameter⟩
      else .ok (.helloRetryRequest, { st1 with hrrCount := st1.hrrCount + 1 })

/-- Handshake states of the client driver from ServerFinished onwards
(`ssl->state` values dispatched in mbedtls_ssl_tls13_handshake_client_step,
ssl_tls13_client.c:2840-2941). -/
inductive HandshakeState where
  | serverFinished
  | endOfEarlyData
  | ccsAfterServerFinished
  | clientCertificate
  | clientCertificateVerify
  | clientFinished
  | flushBuffers
  | handshakeWrapup
  | handshakeOver
deriving DecidableEq

/-- Symmetric keying contexts that can be installed for a direction. -/
inductive TransformKind where
  | handshake
  | application
deriving DecidableEq

/-- Externally visible actions emitted by one driver step. -/
inductive HsEvent where
  | writeEndOfEarlyData (bodyLen : Nat)
  | switchOutbound (t : TransformKind)
  | writeCcs
  | writeCertificate
  | writeCertificateVerify
  | writeFinished
deriving DecidableEq

/-- Connection state for the driver steps from ServerFinished onwards.
`compatibilityMode` models the MBEDTLS_SSL_TLS1_3_COMPATIBILITY_MODE build
option; `clientAuth`/`hasOwnCert` model `handshake->client_auth` and
`mbedtls_ssl_own_cert(ssl) != NULL`. -/
structure MachineState where
  hsState : HandshakeState
  earlyDataStatus : EarlyDataStatus
  clientAuth : Bool
  hasOwnCert : Bool
  compatibilityMode : Bool
deriving DecidableEq

/-- One step of mbedtls_ssl_tls13_handshake_client_step for the states
from ServerFinished onwards, with the per-state handlers inlined:
ssl_tls13_process_server_finished (2433-2466),
ssl_tls13_write_end_of_early_data (2162-2190) which finishes the empty
message and only then switches outbound to the handshake transform,
ssl_tls13_write_client_certificate (2471-2504),
ssl_tls13_write_client_certificate_verify (2510-2520),
ssl_tls13_write_client_finished (2526-2545), ssl_tls13_flush_buffers
(2550-2556), ssl_tls13_handshake_wrapup (2561-2569) and the dummy-CCS
state (2916-2921).  External message construction and key-schedule calls
are modelled as succeeding. -/
def mbedtls_ssl_tls13_handshake_client_step (s : MachineState) :
    MachineState × List HsEvent :=
  match s.hsState with
  | .serverFinished =>
    if s.earlyDataStatus = .accepted then
      ({ s with hsState := .endOfEarlyData }, [])
    else if s.compatibilityMode then
      ({ s with hsState := .ccsAfterServerFinished }, [])
    else ({ s with hsState := .clientCertificate }, [])
  | .endOfEarlyData =>
    ({ s with hsState := .clientCertificate },
     [.writeEndOfEarlyData 0, .switchOutbound .handshake])
  | .ccsAfterServerFinished =>
    ({ s with hsState := .clientCertificate }, [.writeCcs])
  | .clientCertificate =>
    if s.clientAuth && s.hasOwnCert then
      ({ s with hsState := .clientCertificateVerify },
       [.switchOutbound .handshake, .writeCertificate])
    else if s.clientAuth then
      ({ s with hsState := .clientFinished },
       [.switchOutbound .handshake, .writeCertificate])
    else ({ s with hsState := .clientFinished }, [.switchOutbound .handshake])
  | .clientCertificateVerify =>
    ({ s with hsState := .clientFinished }, [.writeCertificateVerify])
  | .clientFinished =>
    ({ s with hsState := .flushBuffers }, [.writeFinished])
  | .flushBuffers => ({ s with hsState := .handshakeWrapup }, [])
  | .handshakeWrapup => ({ s with hsState := .handshakeOver }, [])
  | .handshakeOver => (s, [])

/-- The concatenated event trace of `n` driver steps from state `s`. -/
def runClientEvents : Nat → MachineState → List HsEvent
  | 0, _ => []
  | n + 1, s =>
    (mbedtls_ssl_tls13_handshake_client_step s).2 ++
      runClientEvents n (mbedtls_ssl_tls13_handshake_client_step s).1

theorem land_mask_idem (a m : Nat) : a &&& m &&& m = a &&& m := by
  apply Nat.eq_of_testBit_eq
  intro i
  simp [Nat.testBit_land, Bool.and_assoc]

/-- C1: after a successfully parsed ServerHello, post-processing decides
`key_exchange_mode` purely from `received_extensions` restricted to
{PRE_SHARED_KEY, KEY_SHARE}: pre_shared_key alone yields psk, key_share
alone yields ephemeral, both yield psk_ephemeral; and when neither
extension was received, or the decided mode is not enabled in the
configured `tls13_kex_modes`, it fails with HandshakeFailure and pends a
handshake_failure alert. -/
theorem claim1_key_exchange_mode_decision (recv conf : Nat) :
    ssl_tls13_postprocess_server_hello recv conf =
      ssl_tls13_postprocess_server_hello
        (recv &&& (EXT_MASK_PRE_SHARED_KEY ||| EXT_MASK_KEY_SHARE)) conf ∧
    (recv &&& (EXT_MASK_PRE_SHARED_KEY ||| EXT_MASK_KEY_SHARE) = EXT_MASK_PRE_SHARED_KEY →
      ssl_tls13_postprocess_server_hello recv conf =
        if mbedtls_ssl_conf_tls13_check_kex_modes conf KEX_MODE_PSK then .ok .psk
        else .fail ⟨.handshakeFailure, some .handshakeFailure⟩) ∧
    (recv &&& (EXT_MASK_PRE_SHARED_KEY ||| EXT_MASK_KEY_SHARE) = EXT_MASK_KEY_SHARE →
      ssl_tls13_postprocess_server_hello recv conf =
        if mbedtls_ssl_conf_tls13_check_kex_modes conf KEX_MODE_EPHEMERAL then .ok .ephemeral
        else .fail ⟨.handshakeFailure, some .handshakeFailure⟩) ∧
    (recv &&& (EXT_MASK_PRE_SHARED_KEY ||| EXT_MASK_KEY_SHARE) =
        (EXT_MASK_PRE_SHARED_KEY ||| EXT_MASK_KEY_SHARE) →
      ssl_tls13_postprocess_server_hello recv conf =
        if mbedtls_ssl_conf_tls13_check_kex_modes conf KEX_MODE_PSK_EPHEMERAL then
          .ok .pskEphemeral
        else .fail ⟨.handshakeFailure, some .handshakeFailure⟩) ∧
    (recv &&& (EXT_MASK_PRE_SHARED_KEY ||| EXT_MASK_KEY_SHARE) = 0 →
      ssl_tls13_postprocess_server_hello recv conf =
        .fail ⟨.handshakeFailure, some .handshakeFailure⟩) := by
  refine ⟨?_, ?_, ?_, ?_, ?_⟩
  · show _ = ssl_tls13_postprocess_server_hello _ conf
    unfold ssl_tls13_postprocess_server_hello
    rw [land_mask_idem]
  · intro h
    unfold ssl_tls13_postprocess_server_hello
    rw [h, if_pos rfl]
    rfl
  · intro h
    unfold ssl_tls13_postprocess_server_hello
    rw [h, if_neg (by decide), if_pos rfl]
    rfl
  · intro h
    unfold ssl_tls13_postprocess_server_hello
    rw [h, if_neg (by decide), if_neg (by decide), if_pos rfl]
    rfl
  · intro h
    unfold ssl_tls13_postprocess_server_hello
    rw [h, if_neg (by decide), if_neg (by decide), if_neg (by decide)]

theorem claim1_witness :
    ssl_tls13_postprocess_server_hello EXT_MASK_PRE_SHARED_KEY 1 = .ok .psk := by
  have h := (claim1_key_exchange_mode_decision EXT_MASK_PRE_SHARED_KEY 1).2.1 (by decide)
  rw [h]
  decide

/-- C9: the supported_versions extension parser of ServerHello and
HelloRetryRequest fails with IllegalParameter and pends an
illegal_parameter alert when the two version bytes it carries are not
TLS 1.3 (0x0304), and fails with DecodeError and pends a decode_error
alert when the extension data is not exactly 2 bytes long. -/
theorem claim9_supported_versions_content_checks (b : List Nat) :
    (2 ≤ b.length → getU16 b 0 ≠ 0x0304 →
      ssl_tls13_parse_supported_versions_ext b =
        .fail ⟨.illegalParameter, some .illegalParameter⟩) ∧
    (getU16 b 0 = 0x0304 → b.length ≠ 2 →
      ssl_tls13_parse_supported_versions_ext b =
        .fail ⟨.decodeError, some .decodeError⟩) ∧
    (b.length < 2 →
      ssl_tls13_parse_supported_versions_ext b =
        .fail ⟨.decodeError, some .decodeError⟩) := by
  unfold ssl_tls13_parse_supported_versions_ext
  refine ⟨?_, ?_, ?_⟩
  · intro hlen hv
    rw [if_neg (by omega), if_pos hv]
  · intro hv hlen
    by_cases h2 : b.length < 2
    · rw [if_pos h2]
    · rw [if_neg h2, if_neg (by simp [hv]), if_pos hlen]
  · intro h2
    rw [if_pos h2]

theorem claim9_witness :
    2 ≤ ([3, 3] : List Nat).length ∧ getU16 [3, 3] 0 ≠ 0x0304 ∧
      ssl_tls13_parse_supported_versions_ext [3, 3] =
        .fail ⟨.illegalParameter, some .illegalParameter⟩ :=
  ⟨by decide, by decide,
    (claim9_supported_versions_content_checks [3, 3]).1 (by decide) (by decide)⟩

/-- C10: whenever the ClientHello extension writer does not write the
early_data extension (some conjunct of: a PSK mode enabled, a valid
early-data ticket, early data enabled in the configuration, is false), it
sets `early_data_status` to NotSent, a value distinct from Rejected and
Accepted; the tentative Rejected value is set exactly when the early_data
extension is written. -/
theorem claim10_early_data_status (cfg : ClientConfig) :
    ((mbedtls_ssl_conf_tls13_some_psk_enabled cfg.kexModes &&
        ssl_tls13_early_data_has_valid_ticket cfg && cfg.earlyDataEnabled) = false →
      (mbedtls_ssl_tls13_write_client_hello_exts cfg).2 = .notSent ∧
        TLS_EXT_EARLY_DATA ∉ (mbedtls_ssl_tls13_write_client_hello_exts cfg).1) ∧
    ((mbedtls_ssl_conf_tls13_some_psk_enabled cfg.kexModes &&
        ssl_tls13_early_data_has_valid_ticket cfg && cfg.earlyDataEnabled) = true →
      (mbedtls_ssl_tls13_write_client_hello_exts cfg).2 = .rejected ∧
        TLS_EXT_EARLY_DATA ∈ (mbedtls_ssl_tls13_write_client_hello_exts cfg).1) ∧
    EarlyDataStatus.notSent ≠ EarlyDataStatus.rejected ∧
    EarlyDataStatus.notSent ≠ EarlyDataStatus.accepted := by
  unfold mbedtls_ssl_tls13_write_client_hello_exts
  refine ⟨?_, ?_, by decide, by decide⟩
  · intro h
    rw [if_neg (by simp [h])]
    refine ⟨rfl, ?_⟩
    simp only [List.mem_append, List.mem_singleton, List.mem_cons]
    rintro ((h1 | h2) | h3)
    · rcases h1 with h1 | h1
      · exact absurd h1 (by decide)
      · split at h1 <;> simp_all [TLS_EXT_EARLY_DATA, TLS_EXT_COOKIE]
    · split at h2 <;> simp_all [TLS_EXT_EARLY_DATA, TLS_EXT_KEY_SHARE]
    · split at h3 <;> simp_all [TLS_EXT_EARLY_DATA, TLS_EXT_PSK_KEY_EXCHANGE_MODES]
  · intro h
    rw [if_pos (by simp [h])]
    refine ⟨rfl, ?_⟩
    simp

theorem claim10_witness :
    (mbedtls_ssl_tls13_write_client_hello_exts
      ⟨2, false, false, none, false, [], false⟩).2 = EarlyDataStatus.notSent :=
  ((claim10_early_data_status ⟨2, false, false, none, false, [], false⟩).1
    (by decide)).1

/-- C5: the key_share parser for an accepted HelloRetryRequest fails with
IllegalParameter and pends an illegal_parameter alert unless the
selected_group is present in the configured group list, supported by the
crypto provider, and different from the currently offered group; on
success the selected group becomes the new `offered_group_id`. -/
theorem claim5_hrr_key_share (supported : Nat → Bool) (groupList : List Nat)
    (offeredGroupId : Nat) (b : List Nat) (h2 : 2 ≤ b.length) :
    (¬(getU16 b 0 ∈ groupList ∧ supported (getU16 b 0) = true ∧
        getU16 b 0 ≠ offeredGroupId) →
      ssl_tls13_parse_hrr_key_share_ext supported groupList offeredGroupId b =
        .fail ⟨.illegalParameter, some .illegalParameter⟩) ∧
    ((getU16 b 0 ∈ groupList ∧ supported (getU16 b 0) = true ∧
        getU16 b 0 ≠ offeredGroupId) →
      ssl_tls13_parse_hrr_key_share_ext supported groupList offeredGroupId b =
        .ok (getU16 b 0)) := by
  unfold ssl_tls13_parse_hrr_key_share_ext
  rw [if_neg (by omega)]
  have hfound : (groupList.any fun g => supported g && g == getU16 b 0) = true ↔
      getU16 b 0 ∈ groupList ∧ supported (getU16 b 0) = true := by
    simp only [List.any_eq_true, Bool.and_eq_true, beq_iff_eq]
    constructor
    · rintro ⟨g, hg, hsup, hgeq⟩
      exact ⟨hgeq ▸ hg, hgeq ▸ hsup⟩
    · rintro ⟨hmem, hsup⟩
      exact ⟨getU16 b 0, hmem, hsup, rfl⟩
  constructor
  · intro hno
    rw [if_pos ?_]
    by_cases hf : (groupList.any fun g => supported g && g == getU16 b 0) = true
    · right
      by_contra hne
      exact hno ⟨(hfound.mp hf).1, (hfound.mp hf).2, hne⟩
    · left
      simp only [Bool.not_eq_true] at hf
      exact hf
  · rintro ⟨hmem, hsup, hne⟩
    rw [if_neg ?_]
    push_neg
    exact ⟨by simp [hfound.mpr ⟨hmem, hsup⟩], hne⟩

theorem claim5_witness :
    ssl_tls13_parse_hrr_key_share_ext (fun g => g == 0x1D) [0x17, 0x1D] 0x17
      [0, 0x1D] = .ok 0x1D := by
  have h := (claim5_hrr_key_share (fun g => g == 0x1D) [0x17, 0x1D] 0x17
    [0, 0x1D] (by decide)).2 ⟨by decide, by decide, by decide⟩
  simpa using h

theorem obfuscated_age_closed_form (now received : Int) (ageAdd : Nat)
    (h0 : 0 ≤ now - received) (h32 : now - received < 2 ^ 32) :
    obfuscatedTicketAge now received ageAdd =
      ((max (now - received).toNat 1 - 1) * 1000 + ageAdd) % 2 ^ 32 := by
  have hmod : (now - received) % (2 ^ 32 : Int) = now - received :=
    Int.emod_eq_of_lt h0 (by exact_mod_cast h32)
  have ha : (if 0 < (now - received).toNat then (now - received).toNat - 1
      else (now - received).toNat) = max (now - received).toNat 1 - 1 := by
    split <;> omega
  show (((if 0 < ((now - received) % (2 ^ 32 : Int)).toNat then
      ((now - received) % (2 ^ 32 : Int)).toNat - 1
    else ((now - received) % (2 ^ 32 : Int)).toNat) * 1000 + ageAdd) % 2 ^ 32) = _
  rw [hmod, ha]

/-- C6: for a configured resumption ticket (with wall-clock time
available), the obfuscated ticket age written in the PskIdentity equals
((max(age_sec, 1) - 1) * 1000 + ticket_age_add) mod 2^32 with
age_sec = now - ticket_received; and every static external PSK identity
is written with obfuscated ticket age 0. -/
theorem claim6_obfuscated_ticket_age (cfg : ClientConfig) (t : TicketInfo) (now : Int)
    (ht : cfg.sessionTicket = some t)
    (htc : ssl_tls13_has_configured_ticket cfg = true)
    (h0 : 0 ≤ now - t.received) (h32 : now - t.received < 2 ^ 32) :
    identitiesToWrite cfg now =
      ⟨t.ticket, ((max (now - t.received).toNat 1 - 1) * 1000 + t.ageAdd) % 2 ^ 32,
        t.hashLen⟩ :: staticPskEntryList cfg ∧
    ∀ e ∈ staticPskEntryList cfg, e.obfAge = 0 := by
  have hcfg : ssl_tls13_has_configured_ticket cfg =
      (cfg.resume && mbedtls_ssl_conf_tls13_check_kex_modes cfg.kexModes
        (t.flags &&& KEX_MODE_PSK_ALL)) := by
    unfold ssl_tls13_has_configured_ticket
    rw [ht]
  rw [hcfg] at htc
  have hTicket : ticketEntryList cfg now =
      [⟨t.ticket, obfuscatedTicketAge now t.received t.ageAdd, t.hashLen⟩] := by
    unfold ticketEntryList
    rw [ht]
    exact if_pos htc
  constructor
  · unfold identitiesToWrite
    rw [hTicket, obfuscated_age_closed_form now t.received t.ageAdd h0 h32]
    rfl
  · intro e he
    unfold staticPskEntryList at he
    split at he
    · simp only [List.mem_singleton] at he
      rw [he]
    · simp at he

theorem claim6_witness :
    identitiesToWrite
      ⟨1, false, true, some ⟨[7], 0, 5, 1, 0x0304, true, 32⟩, false, [], false⟩ 10 =
      [⟨[7], 9005, 32⟩] := by
  have h := claim6_obfuscated_ticket_age
    ⟨1, false, true, some ⟨[7], 0, 5, 1, 0x0304, true, 32⟩, false, [], false⟩
    ⟨[7], 0, 5, 1, 0x0304, true, 32⟩ 10 rfl (by decide) (by decide) (by decide)
  exact Eq.trans h.1 (by decide)

/-- C7: for a successful run of the pre_shared_key identities writer with
at least one configured PSK, the returned binders length is the sum of
(1 + hash_len) over the selected PSKs plus 2 (the binders-list length
prefix), and the returned out_len is the number of identity-region bytes
written plus that binders length (the binder region being reserved but
left unwritten). -/
theorem claim7_psk_ext_lengths (cfg : ClientConfig) (now : Int)
    (hcount : 1 ≤ ssl_tls13_get_configured_psk_count cfg) :
    (mbedtls_ssl_tls13_write_identities_of_pre_shared_key_ext cfg now).bindersLen =
      ((identitiesToWrite cfg now).map fun e => 1 + e.hashLen).sum + 2 ∧
    (mbedtls_ssl_tls13_write_identities_of_pre_shared_key_ext cfg now).outLen =
      (mbedtls_ssl_tls13_write_identities_of_pre_shared_key_ext
        cfg now).identityRegion.length +
        (mbedtls_ssl_tls13_write_identities_of_pre_shared_key_ext
          cfg now).bindersLen := by
  unfold mbedtls_ssl_tls13_write_identities_of_pre_shared_key_ext
  rw [if_neg (by omega)]
  refine ⟨rfl, ?_⟩
  simp only [List.length_append, putU16, List.length_cons, List.length_nil]

theorem claim7_witness :
    (mbedtls_ssl_tls13_write_identities_of_pre_shared_key_ext
      ⟨1, false, false, none, true, [9], false⟩ 0).bindersLen = 35 ∧
    (mbedtls_ssl_tls13_write_identities_of_pre_shared_key_ext
      ⟨1, false, false, none, true, [9], false⟩ 0).outLen = 48 := by
  have h := claim7_psk_ext_lengths ⟨1, false, false, none, true, [9], false⟩ 0 (by decide)
  exact ⟨Eq.trans h.1 (by decide), Eq.trans h.2 (by decide)⟩

/-- C2: in every ClientHello written with at least one configured PSK, the
pre_shared_key extension is the last extension: the extension writer only
emits supported_versions, cookie, key_share, early_data and
psk_key_exchange_modes (never pre_shared_key), the driver appends the
pre_shared_key identities after every other extension, and the binder
bytes written last fill exactly the region reserved after the identities. -/
theorem claim2_pre_shared_key_last (cfg : ClientConfig) (now : Int)
    (ticketMac pskMac : List Nat)
    (hcount : 1 ≤ ssl_tls13_get_configured_psk_count cfg)
    (htm : ∀ t, cfg.sessionTicket = some t → ticketMac.length = t.hashLen)
    (hpm : pskMac.length = 32) :
    clientHelloExtTypes cfg =
      (mbedtls_ssl_tls13_write_client_hello_exts cfg).1 ++ [TLS_EXT_PRE_SHARED_KEY] ∧
    (clientHelloExtTypes cfg).getLast? = some TLS_EXT_PRE_SHARED_KEY ∧
    TLS_EXT_PRE_SHARED_KEY ∉ (mbedtls_ssl_tls13_write_client_hello_exts cfg).1 ∧
    (∀ e ∈ (mbedtls_ssl_tls13_write_client_hello_exts cfg).1,
      e ∈ [TLS_EXT_SUPPORTED_VERSIONS, TLS_EXT_COOKIE, TLS_EXT_KEY_SHARE,
        TLS_EXT_EARLY_DATA, TLS_EXT_PSK_KEY_EXCHANGE_MODES]) ∧
    (mbedtls_ssl_tls13_write_binders_of_pre_shared_key_ext cfg ticketMac pskMac).length =
      (mbedtls_ssl_tls13_write_identities_of_pre_shared_key_ext cfg now).bindersLen := by
  have hfirst : clientHelloExtTypes cfg =
      (mbedtls_ssl_tls13_write_client_hello_exts cfg).1 ++ [TLS_EXT_PRE_SHARED_KEY] := by
    unfold clientHelloExtTypes
    rw [if_neg (by omega)]
  have hexts : ∀ e ∈ (mbedtls_ssl_tls13_write_client_hello_exts cfg).1,
      e ∈ [TLS_EXT_SUPPORTED_VERSIONS, TLS_EXT_COOKIE, TLS_EXT_KEY_SHARE,
        TLS_EXT_EARLY_DATA, TLS_EXT_PSK_KEY_EXCHANGE_MODES] := by
    intro e he
    unfold mbedtls_ssl_tls13_write_client_hello_exts at he
    by_cases h1 : cfg.hasCookie = true <;>
      by_cases h2 : mbedtls_ssl_conf_tls13_some_ephemeral_enabled cfg.kexModes = true <;>
      by_cases h3 : mbedtls_ssl_conf_tls13_some_psk_enabled cfg.kexModes = true <;>
      by_cases h4 : ssl_tls13_early_data_has_valid_ticket cfg = true <;>
      by_cases h5 : cfg.earlyDataEnabled = true <;>
      simp_all <;> tauto
  have hB : (mbedtls_ssl_tls13_write_identities_of_pre_shared_key_ext cfg now).bindersLen =
      ((identitiesToWrite cfg now).map fun e => 1 + e.hashLen).sum + 2 := by
    unfold mbedtls_ssl_tls13_write_identities_of_pre_shared_key_ext
    rw [if_neg (by omega)]
  refine ⟨hfirst, ?_, ?_, hexts, ?_⟩
  · rw [hfirst, List.getLast?_append]
    rfl
  · intro hmem
    have := hexts TLS_EXT_PRE_SHARED_KEY hmem
    simp [TLS_EXT_PRE_SHARED_KEY, TLS_EXT_SUPPORTED_VERSIONS, TLS_EXT_COOKIE,
      TLS_EXT_KEY_SHARE, TLS_EXT_EARLY_DATA, TLS_EXT_PSK_KEY_EXCHANGE_MODES] at this
  · rw [hB]
    unfold mbedtls_ssl_tls13_write_binders_of_pre_shared_key_ext identitiesToWrite
      ticketEntryList staticPskEntryList ssl_tls13_write_binder
    cases hst : cfg.sessionTicket with
    | none =>
      by_cases hp : cfg.hasStaticPsk = true <;>
        simp [hp, putU16, hpm]
    | some t =>
      have hTm := htm t hst
      by_cases hg : (cfg.resume && mbedtls_ssl_conf_tls13_check_kex_modes cfg.kexModes
          (t.flags &&& KEX_MODE_PSK_ALL)) = true <;>
        by_cases hp : cfg.hasStaticPsk = true <;>
          simp [hg, hp, putU16, hpm, hTm] <;> omega

theorem claim2_witness :
    clientHelloExtTypes ⟨1, false, false, none, true, [9], false⟩ =
      [TLS_EXT_SUPPORTED_VERSIONS, TLS_EXT_PSK_KEY_EXCHANGE_MODES,
        TLS_EXT_PRE_SHARED_KEY] := by
  have h := (claim2_pre_shared_key_last ⟨1, false, false, none, true, [9], false⟩ 0
    [] (List.replicate 32 0) (by decide) (by intro t ht; cases ht) (by simp)).1
  exact Eq.trans h (by decide)

theorem sv_present_length (buf : List Nat) (b : Bool)
    (h : ssl_tls13_is_supported_versions_ext_present buf = .ok b) :
    35 ≤ buf.length := by
  by_contra hlt
  push_neg at hlt
  unfold ssl_tls13_is_supported_versions_ext_present at h
  rw [if_pos hlt] at h
  exact HsResult.noConfusion h

theorem ecdhe_group_ne_zero (g : Nat)
    (h : mbedtls_ssl_tls13_named_group_is_ecdhe g = true) : ¬g = 0 := by
  unfold mbedtls_ssl_tls13_named_group_is_ecdhe at h
  simp only [Bool.or_eq_true, beq_iff_eq] at h
  rcases h with h | h | h | h | h <;> omega

theorem reset_key_share_ok (st : ClientState)
    (h : mbedtls_ssl_tls13_named_group_is_ecdhe st.offeredGroupId = true) :
    ssl_tls13_reset_key_share st = .ok { st with hasEcdhPrivkey := false } := by
  unfold ssl_tls13_reset_key_share
  rw [if_neg (ecdhe_group_ne_zero _ h), if_pos h]

/-- C4: for a received ServerHello with no supported_versions extension,
if the last eight bytes of the server random are the DOWNGRD magic (while
this TLS 1.3 client offered TLS 1.3), or the client's minimum version does
not allow TLS 1.2, preprocessing fails with IllegalParameter and pends an
illegal_parameter alert; otherwise the connection is marked TLS 1.2, the
message is retained for the external 1.2 handler, and the
SSL_SERVER_HELLO_TLS1_2 signal is returned. -/
theorem claim4_downgrade_protection (kexModesConf : Nat) (st : ClientState)
    (buf : List Nat)
    (hsv : ssl_tls13_is_supported_versions_ext_present buf = .ok false)
    (hkey : mbedtls_ssl_conf_tls13_some_ephemeral_enabled kexModesConf = true →
      mbedtls_ssl_tls13_named_group_is_ecdhe st.offeredGroupId = true) :
    ((0x0303 < st.minTlsVersion ∨ downgradeMagicMatch buf = true) →
      ssl_tls13_preprocess_server_hello kexModesConf st buf =
        .fail ⟨.illegalParameter, some .illegalParameter⟩) ∧
    (st.minTlsVersion ≤ 0x0303 → downgradeMagicMatch buf = false →
      ∃ st2, ssl_tls13_preprocess_server_hello kexModesConf st buf =
          .ok (.tls12, st2) ∧
        st2.tlsVersion = 0x0303 ∧ st2.keepCurrentMessage = true) := by
  have hlen : 35 ≤ buf.length := sv_present_length buf false hsv
  have hdg : ssl_tls13_is_downgrade_negotiation buf =
      .ok (downgradeMagicMatch buf) := by
    unfold ssl_tls13_is_downgrade_negotiation
    rw [if_neg (by omega)]
  constructor
  · intro hcond
    simp only [ssl_tls13_preprocess_server_hello, hsv, hdg]
    rw [if_pos hcond]
  · intro hmin hdgf
    simp only [ssl_tls13_preprocess_server_hello, hsv, hdg]
    rw [if_neg (by
      rintro (h | h)
      · omega
      · rw [hdgf] at h
        exact Bool.noConfusion h)]
    by_cases heph : mbedtls_ssl_conf_tls13_some_ephemeral_enabled kexModesConf = true
    · rw [if_pos heph, reset_key_share_ok _ (by simpa using hkey heph)]
      exact ⟨_, rfl, rfl, rfl⟩
    · rw [if_neg heph]
      exact ⟨_, rfl, rfl, rfl⟩

theorem claim4_witness :
    ssl_tls13_preprocess_server_hello 6 ⟨0x0303, 0x0304, 0, 0, 0x1D, true, false⟩
      ([0x03, 0x03] ++ List.replicate 24 0 ++
        [0x44, 0x4F, 0x57, 0x4E, 0x47, 0x52, 0x44, 0x01] ++
        [0x00, 0x00, 0x2F, 0x00]) =
      .fail ⟨.illegalParameter, some .illegalParameter⟩ := by
  have h := (claim4_downgrade_protection 6 ⟨0x0303, 0x0304, 0, 0, 0x1D, true, false⟩
    ([0x03, 0x03] ++ List.replicate 24 0 ++
      [0x44, 0x4F, 0x57, 0x4E, 0x47, 0x52, 0x44, 0x01] ++
      [0x00, 0x00, 0x2F, 0x00])
    (by decide) (fun _ => by decide)).1 (Or.inr (by decide))
  exact h

/-- C3: at most one HelloRetryRequest is accepted per handshake: when a
message classified as HRR arrives and the HRR counter is already positive,
preprocessing fails with UnexpectedMessage and pends an unexpected_message
alert; when it arrives (counter zero) while no ephemeral key-exchange mode
is enabled, preprocessing fails with IllegalParameter and pends an
illegal_parameter alert; otherwise the HRR counter is incremented exactly
once. -/
theorem claim3_single_hrr (kexModesConf : Nat) (st : ClientState) (buf : List Nat)
    (hsv : ssl_tls13_is_supported_versions_ext_present buf = .ok true)
    (hhrr : isHrrRandom buf = true) :
    (0 < st.hrrCount →
      ssl_tls13_preprocess_server_hello kexModesConf st buf =
        .fail ⟨.unexpectedMessage, some .unexpectedMessage⟩) ∧
    (st.hrrCount = 0 →
      mbedtls_ssl_conf_tls13_some_ephemeral_enabled kexModesConf = false →
      ssl_tls13_preprocess_server_hello kexModesConf st buf =
        .fail ⟨.illegalParameter, some .illegalParameter⟩) ∧
    (st.hrrCount = 0 →
      mbedtls_ssl_conf_tls13_some_ephemeral_enabled kexModesConf = true →
      ∃ st2, ssl_tls13_preprocess_server_hello kexModesConf st buf =
          .ok (.helloRetryRequest, st2) ∧ st2.hrrCount = st.hrrCount + 1) := by
  have hlen : 35 ≤ buf.length := sv_present_length buf true hsv
  have hish : ssl_server_hello_is_hrr buf = .ok true := by
    unfold ssl_server_hello_is_hrr
    rw [if_neg (by omega), hhrr]
  refine ⟨?_, ?_, ?_⟩
  · intro h
    simp only [ssl_tls13_preprocess_server_hello, hsv, hish]
    rw [if_pos h]
  · intro h0 heph
    simp only [ssl_tls13_preprocess_server_hello, hsv, hish]
    rw [if_neg (by omega), if_pos heph]
  · intro h0 heph
    simp only [ssl_tls13_preprocess_server_hello, hsv, hish]
    rw [if_neg (by omega), if_neg (by rw [heph]; exact fun h => Bool.noConfusion h)]
    exact ⟨_, rfl, rfl⟩

theorem claim3_witness :
    ssl_tls13_preprocess_server_hello 6 ⟨0x0304, 0x0304, 1, 0, 0x17, true, false⟩
      ([0x03, 0x03] ++ hrrMagic ++
        [0x00, 0x13, 0x01, 0x00, 0x00, 0x06, 0x00, 0x2B, 0x00, 0x02, 0x03, 0x04]) =
      .fail ⟨.unexpectedMessage, some .unexpectedMessage⟩ := by
  have h := (claim3_single_hrr 6 ⟨0x0304, 0x0304, 1, 0, 0x17, true, false⟩
    ([0x03, 0x03] ++ hrrMagic ++
      [0x00, 0x13, 0x01, 0x00, 0x00, 0x06, 0x00, 0x2B, 0x00, 0x02, 0x03, 0x04])
    (by decide) (by decide)).1 (by decide)
  exact h

theorem no_eoed_step (s : MachineState) (h1 : s.hsState ≠ .endOfEarlyData)
    (h2 : s.hsState = .serverFinished → s.earlyDataStatus ≠ .accepted) :
    ((mbedtls_ssl_tls13_handshake_client_step s).1.hsState ≠ .endOfEarlyData ∧
      ((mbedtls_ssl_tls13_handshake_client_step s).1.hsState = .serverFinished →
        (mbedtls_ssl_tls13_handshake_client_step s).1.earlyDataStatus ≠ .accepted)) ∧
    ∀ len, HsEvent.writeEndOfEarlyData len ∉
      (mbedtls_ssl_tls13_handshake_client_step s).2 := by
  cases hstate : s.hsState
  case serverFinished =>
    have hna := h2 hstate
    by_cases hc : s.compatibilityMode = true <;>
      simp [mbedtls_ssl_tls13_handshake_client_step, hstate, hna, hc]
  case endOfEarlyData => exact absurd hstate h1
  case clientCertificate =>
    by_cases ha : s.clientAuth = true <;> by_cases hb : s.hasOwnCert = true <;>
      simp [mbedtls_ssl_tls13_handshake_client_step, hstate, ha, hb]
  all_goals simp [mbedtls_ssl_tls13_handshake_client_step, hstate]

theorem no_eoed_run (n : Nat) : ∀ s : MachineState,
    s.hsState ≠ .endOfEarlyData →
    (s.hsState = .serverFinished → s.earlyDataStatus ≠ .accepted) →
    ∀ len, HsEvent.writeEndOfEarlyData len ∉ runClientEvents n s := by
  induction n with
  | zero =>
    intro s h1 h2 len
    simp [runClientEvents]
  | succ n ih =>
    intro s h1 h2 len
    have h := no_eoed_step s h1 h2
    intro hmem
    rw [runClientEvents, List.mem_append] at hmem
    rcases hmem with hin | hin
    · exact h.2 len hin
    · exact ih _ h.1.1 h.1.2 len hin

/-- C8: when the server Finished has been processed with
early_data_status = Accepted, the client next writes an EndOfEarlyData
message with an empty body and the outbound transform is switched to the
handshake transform only after that message is finished, never before;
when early_data_status is not Accepted after the server Finished, no
EndOfEarlyData message is ever written. -/
theorem claim8_end_of_early_data (s : MachineState)
    (hs : s.hsState = .serverFinished) :
    (s.earlyDataStatus = .accepted →
      runClientEvents 2 s =
        [.writeEndOfEarlyData 0, .switchOutbound .handshake] ∧
      ∀ n, (runClientEvents n s).takeWhile
        (fun e => !(e == HsEvent.writeEndOfEarlyData 0)) = []) ∧
    (s.earlyDataStatus ≠ .accepted →
      ∀ n len, HsEvent.writeEndOfEarlyData len ∉ runClientEvents n s) := by
  constructor
  · intro hacc
    constructor
    · simp [runClientEvents, mbedtls_ssl_tls13_handshake_client_step, hs, hacc]
    · intro n
      match n with
      | 0 => rfl
      | 1 =>
        simp [runClientEvents, mbedtls_ssl_tls13_handshake_client_step, hs, hacc]
      | n + 2 =>
        simp [runClientEvents, mbedtls_ssl_tls13_handshake_client_step, hs, hacc,
          List.takeWhile]
  · intro hacc n len
    exact no_eoed_run n s (by rw [hs]; exact fun h => HandshakeState.noConfusion h)
      (fun _ => hacc) len

theorem claim8_witness :
    runClientEvents 2 ⟨.serverFinished, .accepted, false, false, false⟩ =
      [HsEvent.writeEndOfEarlyData 0, HsEvent.switchOutbound .handshake] :=
  ((claim8_end_of_early_data ⟨.serverFinished, .accepted, false, false, false⟩
    rfl).1 rfl).1
